import Mathlib

/-!
Shallow embedding of the kubescape/vulrel runtime-security agent core:
the rule evaluators (R1003 malicious SSH connection, R0006 unexpected
service-account token access, R1002 kernel module load), the event
dispatcher of the rule manager, the container lifecycle callback, the
application-profile object cache, and the HTTP exporter configuration
and rate limiter.

Conventions of the embedding:
- Go strings are Lean `String`s; `strings.Contains` and
  `strings.HasPrefix` are `containsSubstr` and `hasPrefixStr`.
- Machine integers (`uint16`, `uint32`, `uint64` timestamps) are `Nat`;
  the signed `int64` timestamps and their difference are `Int`, with Go's
  truncating division embedded as `Int.tdiv`.
- Fallible Go functions returning `(T, error)` become `Except String T`.
- Stateful evaluators become explicit state passing: a Go method
  `rule.ProcessEvent` that mutates `rule` and returns a failure becomes a
  Lean function `State → ... → State × Option Failure`.
- Alert fields that no verified property mentions (fix suggestions,
  process-tree snapshots, raw event payload copies) are projected away
  from the failure records.
-/

set_option linter.unusedVariables false

/-- Event types as declared in the utils package of the agent. -/
inductive EventType where
  | ExecveEventType
  | OpenEventType
  | NetworkEventType
  | DnsEventType
  | SyscallEventType
  | CapabilitiesEventType
  | RandomXEventType
  | HardlinkEventType
deriving DecidableEq, Repr

/-- Open event (trace/open gadget): path, flags, pid, timestamp and the
kubernetes coordinates used by `GetNamespace`/`GetPod`/`GetContainer`. -/
structure OpenEvent where
  path : String
  flags : List String
  pid : Nat
  timestamp : Int
  namespaceName : String
  podName : String
  containerName : String
deriving DecidableEq, Repr

/-- Network event (trace/network gadget): the fields read by R1003. -/
structure NetworkEvent where
  pid : Nat
  timestamp : Int
  pktType : String
  proto : String
  port : Nat
deriving DecidableEq, Repr

/-- Syscall event: the peeked syscall name set. -/
structure SyscallEvent where
  syscalls : List String
deriving DecidableEq, Repr

/-- The `interface\x7b\x7d` event argument of `ProcessEvent`: a tagged union;
`otherE` stands for any payload whose type assertion to the expected
gadget event type fails. -/
inductive Event where
  | openE (e : OpenEvent)
  | networkE (e : NetworkEvent)
  | syscallE (e : SyscallEvent)
  | otherE
deriving DecidableEq, Repr

/-- Rule priority levels (declared outside the provided sources; values
follow the rule-priority ordering used by the descriptors, high below
critical). -/
def RulePriorityHigh : Nat := 8

/-- Critical rule priority, the level of the R1002 descriptor. -/
def RulePriorityCritical : Nat := 10

/-- Generic rule failure, projected to the fields the verified
properties mention: rule name, rule id, error text and priority. -/
structure GenericRuleFailure where
  ruleName : String
  ruleID : String
  err : String
  rulePriority : Nat
deriving DecidableEq, Repr

/-- Go `strings.HasPrefix s pre`: `s` starts with `pre`. -/
def hasPrefixStr (s pre : String) : Bool :=
  pre.toList.isPrefixOf s.toList

/-- Go `strings.Contains s sub`: some suffix of `s` starts with `sub`. -/
def containsSubstr (s sub : String) : Bool :=
  (List.range (s.toList.length + 1)).any fun i =>
    sub.toList.isPrefixOf (s.toList.drop i)

/-- Go `(timestamp1 - timestamp2) / int64(time.Second)`: truncating
division of the nanosecond difference by 10^9. -/
def calculateTimestampDiffInSeconds (timestamp1 timestamp2 : Int) : Int :=
  (timestamp1 - timestamp2).tdiv 1000000000

namespace R1003MaliciousSSHConnection

def R1003ID : String := "R1003"

def RuleName : String := "Malicious SSH Connection"

def MaxTimeDiffInSeconds : Int := 2

/-- The fixed list of SSH-related file names of the R1003 rule. -/
def SSHRelatedFiles : List String :=
  ["ssh_config", "sshd_config", "ssh_known_hosts", "ssh_known_hosts2",
   "ssh_config.d", "sshd_config.d", ".ssh", "authorized_keys",
   "authorized_keys2", "known_hosts", "known_hosts2", "id_rsa",
   "id_rsa.pub", "id_dsa", "id_dsa.pub", "id_ecdsa", "id_ecdsa.pub",
   "id_ed25519", "id_ed25519.pub", "id_xmss", "id_xmss.pub"]

/-- `IsSSHConfigFile`: substring match of the path against the list. -/
def IsSSHConfigFile (path : String) : Bool :=
  SSHRelatedFiles.any fun sshFile => containsSubstr path sshFile

/-- Mutable evaluator state of `R1003MaliciousSSHConnection`. -/
structure State where
  accessRelatedFiles : Bool
  sshInitiatorPid : Nat
  configFileAccessTimeStamp : Int
  allowedPorts : List Nat
deriving DecidableEq, Repr

/-- `CreateRuleR1003MaliciousSSHConnection`: idle, default port 22. -/
def CreateRule : State :=
  { accessRelatedFiles := false, sshInitiatorPid := 0,
    configFileAccessTimeStamp := 0, allowedPorts := [22] }

/-- The failure value built when the rule fires on a port. -/
def failureFor (port : Nat) : GenericRuleFailure :=
  { ruleName := RuleName, ruleID := R1003ID,
    err := "ssh connection to port " ++ toString port ++ " is not allowed",
    rulePriority := RulePriorityHigh }

/-- The state after the rule discards or consumes its armed state. -/
def resetState (rule : State) : State :=
  { rule with accessRelatedFiles := false, sshInitiatorPid := 0,
              configFileAccessTimeStamp := 0 }

/-- `R1003MaliciousSSHConnection.ProcessEvent`, with the receiver's
mutation made explicit: returns the updated state and the optional
failure. -/
def ProcessEvent (rule : State) (eventType : EventType) (event : Event) :
    State × Option GenericRuleFailure :=
  if eventType ≠ EventType.OpenEventType ∧ eventType ≠ EventType.NetworkEventType then
    (rule, none)
  else if eventType = EventType.OpenEventType ∧ rule.accessRelatedFiles = false then
    match event with
    | Event.openE openEvent =>
      if IsSSHConfigFile openEvent.path then
        ({ rule with accessRelatedFiles := true,
                     sshInitiatorPid := openEvent.pid,
                     configFileAccessTimeStamp := openEvent.timestamp }, none)
      else
        (rule, none)
    | _ => (rule, none)
  else if eventType = EventType.NetworkEventType ∧ rule.accessRelatedFiles = true then
    match event with
    | Event.networkE networkEvent =>
      let timestampDiffInSeconds :=
        calculateTimestampDiffInSeconds networkEvent.timestamp rule.configFileAccessTimeStamp
      if timestampDiffInSeconds > MaxTimeDiffInSeconds then
        (resetState rule, none)
      else if networkEvent.pid = rule.sshInitiatorPid ∧ networkEvent.pktType = "OUTGOING"
              ∧ networkEvent.proto = "TCP"
              ∧ rule.allowedPorts.contains networkEvent.port = false then
        (resetState rule, some (failureFor networkEvent.port))
      else
        (rule, none)
    | _ => (rule, none)
  else
    (rule, none)

end R1003MaliciousSSHConnection

namespace R1002LoadKernelModule

def R1002ID : String := "R1002"

def RuleName : String := "Kernel Module Load"

/-- Failure record of the R1002 rule, projected to the verified fields. -/
structure Failure where
  ruleName : String
  rulePriority : Nat
  err : String
deriving DecidableEq, Repr

/-- `R1002LoadKernelModule.ProcessEvent`: fires exactly when the syscall
set contains "init_module". -/
def ProcessEvent (eventType : EventType) (event : Event) : Option Failure :=
  if eventType ≠ EventType.SyscallEventType then
    none
  else
    match event with
    | Event.syscallE syscallEvent =>
      if syscallEvent.syscalls.contains "init_module" then
        some { ruleName := RuleName, err := "Kernel Module Load",
               rulePriority := RulePriorityCritical }
      else
        none
    | _ => none

end R1002LoadKernelModule

/-- Open calls recorded in an application profile container. -/
structure OpenCalls where
  path : String
  flags : List String
deriving DecidableEq, Repr

/-- Per-container section of an application profile. -/
structure ApplicationProfileContainer where
  name : String
  opens : List OpenCalls
deriving DecidableEq, Repr

/-- Application profile object, projected to the fields the verified
rules read: object name, object namespace and the container sections. -/
structure ApplicationProfile where
  name : String
  namespaceName : String
  containers : List ApplicationProfileContainer
  initContainers : List ApplicationProfileContainer
deriving DecidableEq, Repr

/-- `getContainerFromApplicationProfile`: first match by name among the
regular containers, then among the init containers, else an error. -/
def getContainerFromApplicationProfile (ap : ApplicationProfile)
    (containerName : String) : Except String ApplicationProfileContainer :=
  match ap.containers.find? (fun c => c.name == containerName) with
  | some c => Except.ok c
  | none =>
    match ap.initContainers.find? (fun c => c.name == containerName) with
    | some c => Except.ok c
    | none =>
      Except.error ("container " ++ containerName ++ " not found in application profile")

/-- The application-profile lookup the rules perform through the object
cache: `objCache.ApplicationProfileCache().GetApplicationProfile(ns, pod)`. -/
def ProfileLookup : Type := String → String → Option ApplicationProfile

namespace R0006UnexpectedServiceAccountTokenAccess

def R0006ID : String := "R0006"

def RuleName : String := "Unexpected Service Account Token Access"

/-- The two service-account token path roots (a list because of symlinks). -/
def serviceAccountTokenPathPrefixes : List String :=
  ["/run/secrets/kubernetes.io/serviceaccount",
   "/var/run/secrets/kubernetes.io/serviceaccount"]

/-- Requirements of the R0006 descriptor: open events, profile needed. -/
structure Requirements where
  eventTypes : List EventType
  needApplicationProfile : Bool
deriving DecidableEq, Repr

def ruleRequirements : Requirements :=
  { eventTypes := [EventType.OpenEventType], needApplicationProfile := true }

/-- `R0006UnexpectedServiceAccountTokenAccess.ProcessEvent`. The first
missing-profile failure carries no rule id, matching the source, which
omits `RuleID` in that branch. -/
def ProcessEvent (objCache : ProfileLookup) (eventType : EventType)
    (event : Event) : Option GenericRuleFailure :=
  if eventType ≠ EventType.OpenEventType then
    none
  else
    match event with
    | Event.openE openEvent =>
      let shouldCheckEvent :=
        serviceAccountTokenPathPrefixes.any fun p => hasPrefixStr openEvent.path p
      if shouldCheckEvent = false then
        none
      else
        match objCache openEvent.namespaceName openEvent.podName with
        | none =>
          some { ruleName := RuleName, ruleID := "",
                 err := "Application profile is missing",
                 rulePriority := RulePriorityHigh }
        | some ap =>
          match getContainerFromApplicationProfile ap openEvent.containerName with
          | Except.error _ =>
            some { ruleName := RuleName, ruleID := R0006ID,
                   err := "Application profile is missing",
                   rulePriority := RulePriorityHigh }
          | Except.ok appProfileOpenList =>
            if appProfileOpenList.opens.any
                (fun o => serviceAccountTokenPathPrefixes.any fun p => hasPrefixStr o.path p) then
              none
            else
              some { ruleName := RuleName, ruleID := R0006ID,
                     err := "Unexpected access to service account token: " ++ openEvent.path,
                     rulePriority := RulePriorityHigh }
    | _ => none

end R0006UnexpectedServiceAccountTokenAccess

/-- Declared requirements of a rule evaluator (`RuleSpec`). -/
structure RuleSpec where
  requiredEventTypes : List EventType
  needApplicationProfile : Bool

/-- A rule evaluator as seen by the dispatcher: a name, declared
requirements and the evaluation function (state threading is not needed
for the dispatcher properties; the function already closes over the
object cache). -/
structure RuleEvaluator where
  name : String
  requirements : RuleSpec
  processEv : EventType → Event → Option GenericRuleFailure

/-- `isRelevant`: linear scan of the declared event types. -/
def isRelevant (ruleSpec : RuleSpec) (eventType : EventType) : Bool :=
  ruleSpec.requiredEventTypes.any fun i => i == eventType

/-- Observable effects of one iteration of the dispatcher's per-event
loop on one rule: whether `ProcessEvent` was called, the argument of the
`SendRuleAlert` hand-off if any, and which metric counters were bumped. -/
structure RuleOutcome where
  invoked : Bool
  sentAlert : Option GenericRuleFailure
  reportedRuleAlert : Bool
  reportedRuleProcessed : Bool
deriving DecidableEq, Repr

/-- One iteration of `RuleManager.processEvent`'s loop body: nil rules
are skipped, irrelevant rules are skipped, a non-nil result is exported
and counted as an alert, and `ReportRuleProcessed` runs after the
branch, unconditionally. -/
def processOneRule (eventType : EventType) (event : Event)
    (rule : Option RuleEvaluator) : RuleOutcome :=
  match rule with
  | none => { invoked := false, sentAlert := none,
              reportedRuleAlert := false, reportedRuleProcessed := false }
  | some rule =>
    if isRelevant rule.requirements eventType = false then
      { invoked := false, sentAlert := none,
        reportedRuleAlert := false, reportedRuleProcessed := false }
    else
      match rule.processEv eventType event with
      | some res =>
        { invoked := true, sentAlert := some res,
          reportedRuleAlert := true, reportedRuleProcessed := true }
      | none =>
        { invoked := true, sentAlert := none,
          reportedRuleAlert := false, reportedRuleProcessed := true }

/-- `RuleManager.processEvent`: the loop over the bound rules. -/
def RuleManagerProcessEvent (eventType : EventType) (event : Event)
    (rules : List (Option RuleEvaluator)) : List RuleOutcome :=
  rules.map (processOneRule eventType event)

/-- `CreateK8sContainerID`: `strings.Join([ns, pod, container], "/")`. -/
def CreateK8sContainerID (namespaceName podName containerName : String) : String :=
  namespaceName ++ "/" ++ podName ++ "/" ++ containerName

/-- Container pub/sub notification kinds. -/
inductive PubSubEventType where
  | addContainer
  | removeContainer
deriving DecidableEq, Repr

/-- Container pub/sub notification: the fields `ContainerCallback` reads. -/
structure PubSubEvent where
  eventType : PubSubEventType
  runtimeContainerID : String
  namespaceName : String
  podName : String
  containerName : String
deriving DecidableEq, Repr

/-- State of the rule manager's lifecycle tracker: the tracked-workload
set and the per-runtime-id channel map. The channel map value records
the session's k8s container id, standing for the live `WatchedContainer`
(the agent keeps at most one channel entry per runtime id, so an entry
stands for the session itself). -/
structure RMState where
  trackedContainers : List String
  watchedContainerChannels : List (String × String)
deriving DecidableEq, Repr

/-- `ContainerCallback`, with the session spawned on add and the
sentinel-triggered tear-down (`deleteResources`) folded in synchronously:
on add with an already-present runtime id, return unchanged; on add
otherwise, track the workload key and register the session channel; on
remove, if a channel exists the session receives the termination
sentinel and tears down (untrack the workload key, drop the channel
entry), and the callback's own map delete runs in either case. -/
def ContainerCallback (st : RMState) (notif : PubSubEvent) : RMState :=
  let k8sContainerID :=
    CreateK8sContainerID notif.namespaceName notif.podName notif.containerName
  match notif.eventType with
  | PubSubEventType.addContainer =>
    if (st.watchedContainerChannels.lookup notif.runtimeContainerID).isSome then
      st
    else
      { trackedContainers := k8sContainerID :: st.trackedContainers,
        watchedContainerChannels :=
          (notif.runtimeContainerID, k8sContainerID) :: st.watchedContainerChannels }
  | PubSubEventType.removeContainer =>
    match st.watchedContainerChannels.lookup notif.runtimeContainerID with
    | some sessionK8sID =>
      { trackedContainers := st.trackedContainers.erase sessionK8sID,
        watchedContainerChannels :=
          st.watchedContainerChannels.filter
            (fun p => p.1 != notif.runtimeContainerID) }
    | none =>
      { st with
        watchedContainerChannels :=
          st.watchedContainerChannels.filter
            (fun p => p.1 != notif.runtimeContainerID) }

/-- An unstructured watch object, projected to what the profile cache
reads: the kind, the coordinates, and its JSON serialization. -/
structure Unstructured where
  kind : String
  name : String
  namespaceName : String
  json : String
deriving DecidableEq, Repr

/-- `objectcache.UniqueName`: `namespace ++ "/" ++ name`. -/
def UniqueName (namespaceName name : String) : String :=
  namespaceName ++ "/" ++ name

/-- Modelled Go standard-library semantics: `json.Unmarshal` invoked on
a nil pointer (`var ap *v1beta1.ApplicationProfile` never allocated)
returns an `InvalidUnmarshalError` for every input, as the
`encoding/json` documentation states for a nil unmarshal target. -/
def jsonUnmarshalIntoNilProfile (bytes : String) : Except String ApplicationProfile :=
  Except.error "json: Unmarshal(nil *v1beta1.ApplicationProfile)"

/-- `unstructuredToApplicationProfile`: marshal the object back to JSON,
then unmarshal into the nil profile pointer. -/
def unstructuredToApplicationProfile (obj : Unstructured) :
    Except String ApplicationProfile :=
  jsonUnmarshalIntoNilProfile obj.json

/-- `ApplicationProfileCacheImpl.getApplicationProfile`: fetch the full
object from storage, then convert it. The storage read is a parameter. -/
def getApplicationProfileFromStorage
    (fetch : String → String → Except String Unstructured)
    (namespaceName name : String) : Except String ApplicationProfile :=
  match fetch namespaceName name with
  | Except.error e => Except.error e
  | Except.ok u => unstructuredToApplicationProfile u

/-- State of `ApplicationProfileCacheImpl`. -/
structure APCacheState where
  podToSlug : List (String × String)
  slugToAppProfile : List (String × ApplicationProfile)
  slugToPods : List (String × List String)
  allProfiles : List String
deriving DecidableEq, Repr

/-- `NewApplicationProfileCache`: all indexes empty. -/
def NewApplicationProfileCache : APCacheState :=
  { podToSlug := [], slugToAppProfile := [], slugToPods := [], allProfiles := [] }

/-- `ApplicationProfileCacheImpl.GetApplicationProfile`. -/
def GetApplicationProfile (st : APCacheState) (namespaceName name : String) :
    Option ApplicationProfile :=
  st.slugToAppProfile.lookup (UniqueName namespaceName name)

/-- Update of an assoc-list-backed set map: add a member under a key. -/
def addToSetMap (m : List (String × List String)) (key member : String) :
    List (String × List String) :=
  match m.lookup key with
  | some members => (key, member :: members) :: m.filter (fun p => p.1 != key)
  | none => (key, [member]) :: m

/-- `addPod`: skip known pods, record the slug mappings computed from
the pod's instance id (the slug computation is an input here, as it is
produced by the external instance-id library), then eager-fetch the
profile when `allProfiles` already announces it and it is not cached. -/
def addPod (fetch : String → String → Except String Unstructured)
    (st : APCacheState) (podName uniqueSlug podNamespace slug : String) :
    APCacheState :=
  if (st.podToSlug.lookup podName).isSome then
    st
  else
    let st := { st with podToSlug := (podName, uniqueSlug) :: st.podToSlug,
                        slugToPods := addToSetMap st.slugToPods uniqueSlug podName }
    if st.allProfiles.contains uniqueSlug ∧
        (st.slugToAppProfile.lookup uniqueSlug).isNone then
      match getApplicationProfileFromStorage fetch podNamespace slug with
      | Except.error _ => st
      | Except.ok appProfile =>
        { st with slugToAppProfile := (uniqueSlug, appProfile) :: st.slugToAppProfile }
    else
      st

/-- `deletePod`: drop the pod's slug mapping; when the last pod of the
slug is gone, evict the profile. -/
def deletePod (st : APCacheState) (podName : String) : APCacheState :=
  let uniqueSlug := (st.podToSlug.lookup podName).getD ""
  let st := { st with podToSlug := st.podToSlug.filter (fun p => p.1 != podName) }
  match st.slugToPods.lookup uniqueSlug with
  | none => st
  | some members =>
    let remaining := members.filter (fun m => m != podName)
    if remaining.isEmpty then
      { st with slugToPods := st.slugToPods.filter (fun p => p.1 != uniqueSlug),
                slugToAppProfile :=
                  st.slugToAppProfile.filter (fun p => p.1 != uniqueSlug) }
    else
      { st with slugToPods :=
        (uniqueSlug, remaining) :: st.slugToPods.filter (fun p => p.1 != uniqueSlug) }

/-- `addApplicationProfile`: convert the watch object; on error, log and
return; otherwise fetch the full object, cache it, record the slug in
`allProfiles` and re-link the pods of that slug. -/
def addApplicationProfile (fetch : String → String → Except String Unstructured)
    (st : APCacheState) (obj : Unstructured) : APCacheState :=
  let apName := UniqueName obj.namespaceName obj.name
  match unstructuredToApplicationProfile obj with
  | Except.error _ => st
  | Except.ok appProfile =>
    match getApplicationProfileFromStorage fetch appProfile.namespaceName appProfile.name with
    | Except.error _ => st
    | Except.ok fullAP =>
      let st := { st with
        slugToAppProfile := (apName, fullAP) :: st.slugToAppProfile,
        allProfiles :=
          if st.allProfiles.contains apName then st.allProfiles
          else apName :: st.allProfiles }
      { st with slugToPods :=
          (st.podToSlug.foldl
            (fun m p => if p.2 == apName then addToSetMap m p.2 p.1 else m)
            st.slugToPods) }

/-- `deleteApplicationProfile`: drop all three slug-keyed records. -/
def deleteApplicationProfile (st : APCacheState) (obj : Unstructured) : APCacheState :=
  let apName := UniqueName obj.namespaceName obj.name
  { st with
    slugToAppProfile := st.slugToAppProfile.filter (fun p => p.1 != apName),
    allProfiles := st.allProfiles.filter (fun s => s != apName),
    slugToPods := st.slugToPods.filter (fun p => p.1 != apName) }

/-- Watch-stream events dispatched by the cache's handlers. -/
inductive CacheEvent where
  | podAdd (podName uniqueSlug podNamespace slug : String)
  | podDelete (podName : String)
  | profileAddOrModify (obj : Unstructured)
  | profileDelete (obj : Unstructured)

/-- One handler dispatch of the cache. -/
def cacheStep (fetch : String → String → Except String Unstructured)
    (st : APCacheState) (ev : CacheEvent) : APCacheState :=
  match ev with
  | CacheEvent.podAdd podName uniqueSlug podNamespace slug =>
    addPod fetch st podName uniqueSlug podNamespace slug
  | CacheEvent.podDelete podName => deletePod st podName
  | CacheEvent.profileAddOrModify obj => addApplicationProfile fetch st obj
  | CacheEvent.profileDelete obj => deleteApplicationProfile st obj

/-- A run of the cache from construction over a list of watch events. -/
def cacheRun (fetch : String → String → Except String Unstructured)
    (evs : List CacheEvent) : APCacheState :=
  evs.foldl (cacheStep fetch) NewApplicationProfileCache

/-- HTTP exporter configuration record. `headers = none` models a nil Go
map (field omitted); `method = ""`, `timeoutSeconds = 0` and
`maxAlertsPerMinute = 0` model the corresponding omitted fields. -/
structure HTTPExporterConfig where
  url : String
  method : String
  timeoutSeconds : Nat
  maxAlertsPerMinute : Nat
  headers : Option (List (String × String))
deriving DecidableEq, Repr

/-- Modelled from the spec: `InitHTTPExporter`'s configuration
validation and defaulting (the exporter implementation is absent from
the sources; only its tests are present). An empty URL is an error; an
omitted method defaults to POST and a method other than POST or PUT is
an error; omitted timeout, rate limit and headers default to 1 second,
10000 per minute and an empty header map. -/
def InitHTTPExporter (config : HTTPExporterConfig) :
    Except String HTTPExporterConfig :=
  if config.url = "" then
    Except.error "URL is required for the HTTP exporter"
  else
    let config :=
      if config.method = "" then { config with method := "POST" } else config
    if config.method ≠ "POST" ∧ config.method ≠ "PUT" then
      Except.error "method must be POST or PUT"
    else
      let config :=
        if config.timeoutSeconds = 0 then { config with timeoutSeconds := 1 } else config
      let config :=
        if config.maxAlertsPerMinute = 0 then
          { config with maxAlertsPerMinute := 10000 }
        else config
      let config :=
        if config.headers = none then { config with headers := some [] } else config
      Except.ok config

/-- An alert as placed in the HTTP payload, projected to the fields the
rate-limit property mentions. -/
structure HTTPAlert where
  ruleName : String
  message : String
deriving DecidableEq, Repr

/-- The synthetic alert sent when the rate limit is crossed. -/
def alertLimitReachedAlert : HTTPAlert :=
  { ruleName := "AlertLimitReached", message := "Alert limit reached" }

/-- Rate-limiter state of one HTTP exporter instance: alerts counted in
the current window, the window start (seconds), and whether the
limit-reached alert was already emitted in this window. -/
structure HTTPExporterSendState where
  alertCount : Nat
  windowStart : Nat
  limitNotified : Bool
deriving DecidableEq, Repr

/-- Modelled from the spec: the HTTP exporter's per-minute rate limiter
(the exporter implementation is absent from the sources; only its tests
are present). A monotonic counter bucketed into 60-second windows; on
the send that would exceed the limit, exactly one synthetic
limit-reached alert is sent instead; subsequent sends in the window are
suppressed; the counter resets at the window boundary and normal sends
resume. Returns the new state and the payload put on the wire, if any. -/
def sendAlert (maxAlertsPerMinute : Nat) (st : HTTPExporterSendState)
    (now : Nat) (alert : HTTPAlert) : HTTPExporterSendState × Option HTTPAlert :=
  let st :=
    if st.windowStart + 60 ≤ now then
      { alertCount := 0, windowStart := now, limitNotified := false }
    else st
  let st := { st with alertCount := st.alertCount + 1 }
  if maxAlertsPerMinute < st.alertCount then
    if st.limitNotified then
      (st, none)
    else
      ({ st with limitNotified := true }, some alertLimitReachedAlert)
  else
    (st, some alert)

/-- A sequence of `SendRuleAlert`/`SendMalwareAlert` calls, each with its
wall-clock second, threaded through the rate limiter; collects the HTTP
payloads actually sent. -/
def sendAll (maxAlertsPerMinute : Nat) (st : HTTPExporterSendState) :
    List (Nat × HTTPAlert) → HTTPExporterSendState × List HTTPAlert
  | [] => (st, [])
  | (now, alert) :: rest =>
    let step := sendAlert maxAlertsPerMinute st now alert
    let restRun := sendAll maxAlertsPerMinute step.1 rest
    (restRun.1, step.2.toList ++ restRun.2)

/-- Profile used by the C4 counterexample: container `web` whitelists
exactly one path under the service-account prefixes. -/
def c4Profile : ApplicationProfile :=
  { name := "replicaset-web-1234", namespaceName := "default",
    containers :=
      [{ name := "web",
         opens := [{ path := "/run/secrets/kubernetes.io/serviceaccount/token",
                     flags := ["O_RDONLY"] }] }],
    initContainers := [] }

/-- Cache used by the C4 counterexample. -/
def c4Cache : ProfileLookup := fun namespaceName podName =>
  if namespaceName = "default" ∧ podName = "web-0" then some c4Profile else none

/-- Event used by the C4 counterexample: a service-account path that the
profile does not list. -/
def c4Event : OpenEvent :=
  { path := "/run/secrets/kubernetes.io/serviceaccount/ca.crt",
    flags := ["O_RDONLY"], pid := 7, timestamp := 0,
    namespaceName := "default", podName := "web-0", containerName := "web" }

/-- Failure returned by the always-failing test evaluator below. -/
def alwaysOpenFailure : GenericRuleFailure :=
  { ruleName := "always-failing-open-rule", ruleID := "T1",
    err := "always", rulePriority := RulePriorityHigh }

/-- A concrete evaluator registered for open events that fails on every
event, used to exercise the dispatcher loop. -/
def alwaysFailingOpenRule : RuleEvaluator :=
  { name := "always-failing-open-rule",
    requirements := { requiredEventTypes := [EventType.OpenEventType],
                      needApplicationProfile := false },
    processEv := fun _ _ => some alwaysOpenFailure }

/-- A concrete evaluator registered for open events that never fails,
used to exercise the dispatcher loop. -/
def neverFailingOpenRule : RuleEvaluator :=
  { name := "never-failing-open-rule",
    requirements := { requiredEventTypes := [EventType.OpenEventType],
                      needApplicationProfile := false },
    processEv := fun _ _ => none }

example : R1003MaliciousSSHConnection.IsSSHConfigFile "/etc/ssh/ssh_config" = true := by decide

example : R1003MaliciousSSHConnection.IsSSHConfigFile "/etc/passwd" = false := by decide

example : calculateTimestampDiffInSeconds 2500000000 0 = 2 := by decide

example : calculateTimestampDiffInSeconds 3000000000 0 = 3 := by decide

example :
    R1002LoadKernelModule.ProcessEvent EventType.SyscallEventType
      (Event.syscallE { syscalls := ["finit_module"] }) = none := by decide

/-- C5 (counterexample): the claim states that a syscall set containing
`finit_module` makes R1002 return a failure, but the code only looks for
`init_module`: on the syscall set `["finit_module"]` the evaluator
returns nil although the set contains `finit_module`. -/
theorem C5_counterexample :
    R1002LoadKernelModule.ProcessEvent EventType.SyscallEventType
        (Event.syscallE { syscalls := ["finit_module"] }) = none
    ∧ (["finit_module"] : List String).contains "finit_module" = true := by
  decide

/-- C5 (amended): for every syscall event, the R1002 evaluator returns a
failure of critical priority if and only if the syscall set contains
`init_module`; sets without `init_module` (in particular sets containing
only `finit_module`) return nil. -/
theorem C5_kernel_module_load (e : SyscallEvent) :
    (R1002LoadKernelModule.ProcessEvent EventType.SyscallEventType (Event.syscallE e) =
        some { ruleName := R1002LoadKernelModule.RuleName,
               rulePriority := RulePriorityCritical,
               err := "Kernel Module Load" })
      ↔ e.syscalls.contains "init_module" = true := by
  unfold R1002LoadKernelModule.ProcessEvent
  simp only [reduceIte, ne_eq]
  by_cases h : e.syscalls.contains "init_module" = true
  · simp [h]
  · simp [h]

/-- C2: for a triggering event of the R0006 rule (an open event whose
path is under a service-account token prefix) with the object cache
returning no profile for the event's namespace and pod, `ProcessEvent`
returns exactly one failure whose error text is "Application profile is
missing"; the rule's descriptor declares `needs_profile = true`. -/
theorem C2_profile_missing (objCache : ProfileLookup) (e : OpenEvent)
    (hpre : (R0006UnexpectedServiceAccountTokenAccess.serviceAccountTokenPathPrefixes.any
        fun p => hasPrefixStr e.path p) = true)
    (hnil : objCache e.namespaceName e.podName = none) :
    R0006UnexpectedServiceAccountTokenAccess.ruleRequirements.needApplicationProfile = true
    ∧ R0006UnexpectedServiceAccountTokenAccess.ProcessEvent objCache
        EventType.OpenEventType (Event.openE e) =
      some { ruleName := R0006UnexpectedServiceAccountTokenAccess.RuleName,
             ruleID := "", err := "Application profile is missing",
             rulePriority := RulePriorityHigh } := by
  refine ⟨rfl, ?_⟩
  unfold R0006UnexpectedServiceAccountTokenAccess.ProcessEvent
  simp [hpre, hnil]

/-- Witness for C2 at a concrete cache and event. -/
theorem C2_witness :
    R0006UnexpectedServiceAccountTokenAccess.ruleRequirements.needApplicationProfile = true
    ∧ R0006UnexpectedServiceAccountTokenAccess.ProcessEvent (fun _ _ => none)
        EventType.OpenEventType
        (Event.openE { path := "/var/run/secrets/kubernetes.io/serviceaccount/token",
                       flags := ["O_RDONLY"], pid := 7, timestamp := 0,
                       namespaceName := "default", podName := "web-0",
                       containerName := "web" }) =
      some { ruleName := R0006UnexpectedServiceAccountTokenAccess.RuleName,
             ruleID := "", err := "Application profile is missing",
             rulePriority := RulePriorityHigh } :=
  C2_profile_missing (fun _ _ => none) _ (by decide) rfl

/-- C4 (counterexample): the claim states R0006 returns nil only when
the event's own path is explicitly whitelisted. On an event for
`/run/secrets/kubernetes.io/serviceaccount/ca.crt`, with a present
profile whose opens list contains only
`/run/secrets/kubernetes.io/serviceaccount/token`, the evaluator returns
nil although the event's path appears nowhere in the profile's opens. -/
theorem C4_counterexample :
    R0006UnexpectedServiceAccountTokenAccess.ProcessEvent c4Cache
        EventType.OpenEventType (Event.openE c4Event) = none
    ∧ (c4Profile.containers.all fun c => c.opens.all fun o => o.path ≠ c4Event.path)
    ∧ (R0006UnexpectedServiceAccountTokenAccess.serviceAccountTokenPathPrefixes.any
        fun p => hasPrefixStr c4Event.path p) = true := by
  refine ⟨rfl, by decide, by decide⟩

/-- C4 (amended): for an open event under a service-account token
prefix whose container profile entry is present, R0006 returns nil if
and only if the profile's opens list for that container has at least one
entry whose path itself starts with a service-account token prefix; the
event's own path is not compared against the list. -/
theorem C4_token_access_whitelist (objCache : ProfileLookup) (e : OpenEvent)
    (ap : ApplicationProfile) (cont : ApplicationProfileContainer)
    (hpre : (R0006UnexpectedServiceAccountTokenAccess.serviceAccountTokenPathPrefixes.any
        fun p => hasPrefixStr e.path p) = true)
    (hcache : objCache e.namespaceName e.podName = some ap)
    (hcont : getContainerFromApplicationProfile ap e.containerName = Except.ok cont) :
    (R0006UnexpectedServiceAccountTokenAccess.ProcessEvent objCache
        EventType.OpenEventType (Event.openE e) = none
      ↔ (cont.opens.any fun o =>
          R0006UnexpectedServiceAccountTokenAccess.serviceAccountTokenPathPrefixes.any
            fun p => hasPrefixStr o.path p) = true) := by
  unfold R0006UnexpectedServiceAccountTokenAccess.ProcessEvent
  simp only [hpre, hcache, hcont, reduceIte, ne_eq]
  by_cases h : (cont.opens.any fun o =>
      R0006UnexpectedServiceAccountTokenAccess.serviceAccountTokenPathPrefixes.any
        fun p => hasPrefixStr o.path p) = true
  · simp [h]
  · simp [h]

/-- Witness for the amended C4 at a concrete cache, profile and event. -/
theorem C4_witness :
    (R0006UnexpectedServiceAccountTokenAccess.ProcessEvent c4Cache
        EventType.OpenEventType (Event.openE c4Event) = none
      ↔ ((c4Profile.containers.get ⟨0, by decide⟩).opens.any fun o =>
          R0006UnexpectedServiceAccountTokenAccess.serviceAccountTokenPathPrefixes.any
            fun p => hasPrefixStr o.path p) = true) :=
  C4_token_access_whitelist c4Cache c4Event c4Profile _ (by decide) rfl rfl

/-- C1: the malicious-SSH-connection evaluator behaves as a two-phase
state machine. From idle, an open event on an SSH-related path arms the
evaluator, recording the event's pid and timestamp. While armed, a
network event whose timestamp is within the window (the code's
truncated-seconds difference is at most `MaxTimeDiffInSeconds = 2`) with
the recorded pid, `OUTGOING` packet type, `TCP` protocol and a port not
in the allowed ports yields exactly one failure and resets the evaluator
to idle; a network event past the window resets to idle and yields nil;
any open event while armed, and any in-window network event that does
not meet all the firing conditions, yields nil and leaves the armed
state unchanged; event types other than open and network never change
the state or produce a failure. -/
theorem C1_ssh_state_machine (st : R1003MaliciousSSHConnection.State)
    (openEv : OpenEvent) (netEv : NetworkEvent) (et : EventType) (ev : Event) :
    (st.accessRelatedFiles = false →
      R1003MaliciousSSHConnection.IsSSHConfigFile openEv.path = true →
      R1003MaliciousSSHConnection.ProcessEvent st EventType.OpenEventType
          (Event.openE openEv) =
        ({ st with accessRelatedFiles := true, sshInitiatorPid := openEv.pid,
                   configFileAccessTimeStamp := openEv.timestamp }, none))
  ∧ (st.accessRelatedFiles = true →
      calculateTimestampDiffInSeconds netEv.timestamp st.configFileAccessTimeStamp ≤
        R1003MaliciousSSHConnection.MaxTimeDiffInSeconds →
      netEv.pid = st.sshInitiatorPid → netEv.pktType = "OUTGOING" →
      netEv.proto = "TCP" → st.allowedPorts.contains netEv.port = false →
      R1003MaliciousSSHConnection.ProcessEvent st EventType.NetworkEventType
          (Event.networkE netEv) =
        (R1003MaliciousSSHConnection.resetState st,
         some (R1003MaliciousSSHConnection.failureFor netEv.port)))
  ∧ (st.accessRelatedFiles = true →
      calculateTimestampDiffInSeconds netEv.timestamp st.configFileAccessTimeStamp >
        R1003MaliciousSSHConnection.MaxTimeDiffInSeconds →
      R1003MaliciousSSHConnection.ProcessEvent st EventType.NetworkEventType
          (Event.networkE netEv) =
        (R1003MaliciousSSHConnection.resetState st, none))
  ∧ (st.accessRelatedFiles = true →
      R1003MaliciousSSHConnection.ProcessEvent st EventType.OpenEventType ev =
        (st, none))
  ∧ (st.accessRelatedFiles = true →
      calculateTimestampDiffInSeconds netEv.timestamp st.configFileAccessTimeStamp ≤
        R1003MaliciousSSHConnection.MaxTimeDiffInSeconds →
      ¬(netEv.pid = st.sshInitiatorPid ∧ netEv.pktType = "OUTGOING" ∧
          netEv.proto = "TCP" ∧ st.allowedPorts.contains netEv.port = false) →
      R1003MaliciousSSHConnection.ProcessEvent st EventType.NetworkEventType
          (Event.networkE netEv) =
        (st, none))
  ∧ (et ≠ EventType.OpenEventType → et ≠ EventType.NetworkEventType →
      R1003MaliciousSSHConnection.ProcessEvent st et ev = (st, none)) := by
  unfold R1003MaliciousSSHConnection.ProcessEvent
  refine ⟨?_, ?_, ?_, ?_, ?_, ?_⟩
  · intro hidle hssh
    simp [hidle, hssh]
  · intro harmed hwin hpid hpkt hproto hport
    simp only [harmed, reduceCtorEq, ne_eq, not_false_iff, and_true, and_false,
      false_and, reduceIte, not_true_eq_false]
    simp [not_lt.mpr hwin, hpid, hpkt, hproto, hport]
    simpa using hport
  · intro harmed hwin
    simp only [harmed, reduceCtorEq, ne_eq, not_false_iff, and_true, and_false,
      false_and, reduceIte, not_true_eq_false]
    simp [hwin]
  · intro harmed
    cases ev <;> simp [harmed]
  · intro harmed hwin hnot
    simp only [harmed, reduceCtorEq, ne_eq, not_false_iff, and_true, and_false,
      false_and, reduceIte, not_true_eq_false]
    simp only [not_lt.mpr hwin, reduceIte, if_neg hnot]
  · intro hopen hnet
    cases et <;> simp_all

/-- Witness for C1: a fresh evaluator is armed by an open of
`/etc/ssh/ssh_config` (pid 42, t = 1 s), and the armed evaluator fires
on an outgoing TCP packet to port 2222 at t = 2 s, returning to idle. -/
theorem C1_witness :
    R1003MaliciousSSHConnection.ProcessEvent R1003MaliciousSSHConnection.CreateRule
        EventType.OpenEventType
        (Event.openE { path := "/etc/ssh/ssh_config", flags := ["O_RDONLY"],
                       pid := 42, timestamp := 1000000000,
                       namespaceName := "default", podName := "web-0",
                       containerName := "web" }) =
      ({ accessRelatedFiles := true, sshInitiatorPid := 42,
         configFileAccessTimeStamp := 1000000000, allowedPorts := [22] }, none)
  ∧ R1003MaliciousSSHConnection.ProcessEvent
        { accessRelatedFiles := true, sshInitiatorPid := 42,
          configFileAccessTimeStamp := 1000000000, allowedPorts := [22] }
        EventType.NetworkEventType
        (Event.networkE { pid := 42, timestamp := 2000000000,
                          pktType := "OUTGOING", proto := "TCP", port := 2222 }) =
      ({ accessRelatedFiles := false, sshInitiatorPid := 0,
         configFileAccessTimeStamp := 0, allowedPorts := [22] },
       some (R1003MaliciousSSHConnection.failureFor 2222)) :=
  ⟨(C1_ssh_state_machine R1003MaliciousSSHConnection.CreateRule
      { path := "/etc/ssh/ssh_config", flags := ["O_RDONLY"], pid := 42,
        timestamp := 1000000000, namespaceName := "default", podName := "web-0",
        containerName := "web" }
      { pid := 42, timestamp := 2000000000, pktType := "OUTGOING",
        proto := "TCP", port := 2222 }
      EventType.OpenEventType Event.otherE).1 rfl (by decide),
   (C1_ssh_state_machine
      { accessRelatedFiles := true, sshInitiatorPid := 42,
        configFileAccessTimeStamp := 1000000000, allowedPorts := [22] }
      { path := "/etc/ssh/ssh_config", flags := ["O_RDONLY"], pid := 42,
        timestamp := 1000000000, namespaceName := "default", podName := "web-0",
        containerName := "web" }
      { pid := 42, timestamp := 2000000000, pktType := "OUTGOING",
        proto := "TCP", port := 2222 }
      EventType.OpenEventType Event.otherE).2.1 rfl (by decide) rfl rfl rfl (by decide)⟩

/-- C6: the dispatcher invokes an evaluator on an event exactly when the
event's type is among the evaluator's declared required event types; an
evaluator whose requirements do not include the event type is skipped
(its outcome records no invocation). -/
theorem C6_dispatch_filtering (et : EventType) (ev : Event)
    (rules : List (Option RuleEvaluator)) (i : Nat) (r : RuleEvaluator)
    (o : RuleOutcome)
    (hr : rules[i]? = some (some r))
    (ho : (RuleManagerProcessEvent et ev rules)[i]? = some o) :
    o.invoked = isRelevant r.requirements et
    ∧ (isRelevant r.requirements et = true ↔
        et ∈ r.requirements.requiredEventTypes) := by
  have hmap : (RuleManagerProcessEvent et ev rules)[i]? =
      (rules[i]?).map (processOneRule et ev) := by
    simp [RuleManagerProcessEvent]
  rw [hmap, hr] at ho
  have ho' : o = processOneRule et ev (some r) := by
    exact (Option.some_inj.mp ho).symm
  subst ho'
  constructor
  · unfold processOneRule
    by_cases hrel : isRelevant r.requirements et = false
    · simp [hrel]
    · have hrel' : isRelevant r.requirements et = true := by
        revert hrel; cases isRelevant r.requirements et <;> simp
      cases hres : r.processEv et ev <;> simp [hrel', hres]
  · unfold isRelevant
    simp [List.any_eq_true]

/-- Witness for C6 at a concrete one-rule list and an open event. -/
theorem C6_witness :
    ({ invoked := true, sentAlert := some alwaysOpenFailure,
       reportedRuleAlert := true, reportedRuleProcessed := true } :
        RuleOutcome).invoked
        = isRelevant alwaysFailingOpenRule.requirements EventType.OpenEventType
    ∧ (isRelevant alwaysFailingOpenRule.requirements EventType.OpenEventType = true ↔
        EventType.OpenEventType ∈
          alwaysFailingOpenRule.requirements.requiredEventTypes) :=
  C6_dispatch_filtering EventType.OpenEventType Event.otherE
    [some alwaysFailingOpenRule] 0 alwaysFailingOpenRule
    { invoked := true, sentAlert := some alwaysOpenFailure,
      reportedRuleAlert := true, reportedRuleProcessed := true } rfl rfl

/-- C7 (counterexample): the claim states the processed counter is
incremented only when no failure is returned, but
`metrics.ReportRuleProcessed` runs after the branch unconditionally: on
a rule that returns a failure, the dispatcher both exports the failure,
counts the alert, and still counts the rule as processed. -/
theorem C7_counterexample :
    RuleManagerProcessEvent EventType.OpenEventType Event.otherE
        [some alwaysFailingOpenRule] =
      [{ invoked := true, sentAlert := some alwaysOpenFailure,
         reportedRuleAlert := true, reportedRuleProcessed := true }]
    ∧ (some alwaysOpenFailure ≠ (none : Option GenericRuleFailure)) := by
  exact ⟨rfl, by simp⟩

/-- C7 (amended): in the dispatcher's per-event loop, for every
evaluated rule, a non-nil failure is handed to the exporter and counted
as an alert, while the processed counter is incremented for every
evaluated rule, regardless of whether a failure was returned. -/
theorem C7_loop_counters (et : EventType) (ev : Event) (r : RuleEvaluator)
    (hrel : isRelevant r.requirements et = true) :
    (∀ f, r.processEv et ev = some f →
      processOneRule et ev (some r) =
        { invoked := true, sentAlert := some f,
          reportedRuleAlert := true, reportedRuleProcessed := true })
    ∧ (r.processEv et ev = none →
      processOneRule et ev (some r) =
        { invoked := true, sentAlert := none,
          reportedRuleAlert := false, reportedRuleProcessed := true }) := by
  constructor
  · intro f hf
    simp [processOneRule, hrel, hf]
  · intro hf
    simp [processOneRule, hrel, hf]

/-- Witness for the amended C7: the never-failing rule is counted as
processed and not as alerted. -/
theorem C7_witness :
    processOneRule EventType.OpenEventType Event.otherE (some neverFailingOpenRule) =
      { invoked := true, sentAlert := none,
        reportedRuleAlert := false, reportedRuleProcessed := true } :=
  (C7_loop_counters EventType.OpenEventType Event.otherE neverFailingOpenRule
    (by decide)).2 rfl

/-- Helper: a key that `List.lookup` does not find is not among the keys. -/
theorem lookup_none_not_memKeys (l : List (String × String)) (k : String)
    (h : l.lookup k = none) : k ∉ l.map Prod.fst := by
  induction l with
  | nil => simp
  | cons a t ih =>
    by_cases hk : k = a.1
    · exfalso
      rw [List.lookup, show (k == a.1) = true by simpa using hk] at h
      simp at h
    · rw [List.lookup, show (k == a.1) = false by simpa using hk] at h
      simp only [List.map_cons, List.mem_cons]
      rintro (hc | hc)
      · exact hk hc
      · exact ih h hc

/-- Helper: removing an absent key from an association list by filtering
changes nothing. -/
theorem filter_id_of_lookup_none (l : List (String × String)) (k : String)
    (h : l.lookup k = none) : l.filter (fun p => p.1 != k) = l := by
  induction l with
  | nil => rfl
  | cons a t ih =>
    by_cases hk : k = a.1
    · exfalso
      rw [List.lookup, show (k == a.1) = true by simpa using hk] at h
      simp at h
    · rw [List.lookup, show (k == a.1) = false by simpa using hk] at h
      have ha : (a.1 != k) = true := by
        simpa using fun hc => hk hc.symm
      simp [List.filter_cons, ha, ih h]

/-- C8: for the lifecycle callback, an add notification whose runtime
container id already has a live session leaves the state unchanged (no
second session is created), a remove notification for an untracked
runtime id is a no-op on both the tracked set and the channel map, and
every callback preserves the at-most-one-session invariant (no duplicate
runtime ids among the channel-map keys). -/
theorem C8_container_callback (st : RMState) (notif : PubSubEvent) :
    ((notif.eventType = PubSubEventType.addContainer →
      (st.watchedContainerChannels.lookup notif.runtimeContainerID).isSome = true →
      ContainerCallback st notif = st))
  ∧ ((notif.eventType = PubSubEventType.removeContainer →
      st.watchedContainerChannels.lookup notif.runtimeContainerID = none →
      ContainerCallback st notif = st))
  ∧ ((st.watchedContainerChannels.map Prod.fst).Nodup →
      ((ContainerCallback st notif).watchedContainerChannels.map Prod.fst).Nodup) := by
  refine ⟨?_, ?_, ?_⟩
  · intro htype hsome
    simp [ContainerCallback, htype, hsome]
  · intro htype hnone
    simp only [ContainerCallback, htype, hnone]
    rw [filter_id_of_lookup_none _ _ hnone]
  · intro hnodup
    unfold ContainerCallback
    cases notif.eventType with
    | addContainer =>
      by_cases hsome : (st.watchedContainerChannels.lookup notif.runtimeContainerID).isSome = true
      · simp [hsome, hnodup]
      · have hnone : st.watchedContainerChannels.lookup notif.runtimeContainerID = none := by
          revert hsome
          cases st.watchedContainerChannels.lookup notif.runtimeContainerID <;> simp
        simp only [hnone, Option.isSome_none, Bool.false_eq_true, reduceIte]
        simp only [List.map_cons, List.nodup_cons]
        exact ⟨lookup_none_not_memKeys _ _ hnone, hnodup⟩
    | removeContainer =>
      have hsub : ((st.watchedContainerChannels.filter
            (fun p => p.1 != notif.runtimeContainerID)).map Prod.fst).Nodup :=
        ((List.filter_sublist _).map Prod.fst).nodup hnodup
      cases st.watchedContainerChannels.lookup notif.runtimeContainerID <;>
        simpa using hsub

/-- Witness for C8: a duplicate add for runtime id "r1" is ignored, a
remove for untracked "r9" is a no-op, and the channel-map keys stay
duplicate-free. -/
theorem C8_witness :
    ContainerCallback
        { trackedContainers := ["ns/pod-0/web"],
          watchedContainerChannels := [("r1", "ns/pod-0/web")] }
        { eventType := PubSubEventType.addContainer, runtimeContainerID := "r1",
          namespaceName := "ns", podName := "pod-0", containerName := "web" } =
      { trackedContainers := ["ns/pod-0/web"],
        watchedContainerChannels := [("r1", "ns/pod-0/web")] }
  ∧ ContainerCallback
        { trackedContainers := ["ns/pod-0/web"],
          watchedContainerChannels := [("r1", "ns/pod-0/web")] }
        { eventType := PubSubEventType.removeContainer, runtimeContainerID := "r9",
          namespaceName := "ns", podName := "pod-9", containerName := "web" } =
      { trackedContainers := ["ns/pod-0/web"],
        watchedContainerChannels := [("r1", "ns/pod-0/web")] }
  ∧ (((ContainerCallback
        { trackedContainers := ["ns/pod-0/web"],
          watchedContainerChannels := [("r1", "ns/pod-0/web")] }
        { eventType := PubSubEventType.addContainer, runtimeContainerID := "r2",
          namespaceName := "ns", podName := "pod-1", containerName := "web" }).watchedContainerChannels.map
          Prod.fst).Nodup) :=
  ⟨(C8_container_callback
      { trackedContainers := ["ns/pod-0/web"],
        watchedContainerChannels := [("r1", "ns/pod-0/web")] }
      { eventType := PubSubEventType.addContainer, runtimeContainerID := "r1",
        namespaceName := "ns", podName := "pod-0", containerName := "web" }).1
      rfl (by decide),
   (C8_container_callback
      { trackedContainers := ["ns/pod-0/web"],
        watchedContainerChannels := [("r1", "ns/pod-0/web")] }
      { eventType := PubSubEventType.removeContainer, runtimeContainerID := "r9",
        namespaceName := "ns", podName := "pod-9", containerName := "web" }).2.1
      rfl (by decide),
   (C8_container_callback
      { trackedContainers := ["ns/pod-0/web"],
        watchedContainerChannels := [("r1", "ns/pod-0/web")] }
      { eventType := PubSubEventType.addContainer, runtimeContainerID := "r2",
        namespaceName := "ns", podName := "pod-1", containerName := "web" }).2.2
      (by decide)⟩

/-- Helper: since every profile conversion fails, no handler dispatch
ever materializes a profile or records one in `allProfiles`. -/
theorem cacheStep_keeps_unmaterialized
    (fetch : String → String → Except String Unstructured)
    (st : APCacheState) (ev : CacheEvent)
    (h1 : st.slugToAppProfile = []) (h2 : st.allProfiles = []) :
    (cacheStep fetch st ev).slugToAppProfile = []
    ∧ (cacheStep fetch st ev).allProfiles = [] := by
  cases ev with
  | podAdd podName uniqueSlug podNamespace slug =>
    unfold cacheStep addPod
    by_cases hp : (st.podToSlug.lookup podName).isSome = true
    · simp [hp, h1, h2]
    · simp only [hp, Bool.false_eq_true, reduceIte, h1, h2]
      simp [h1, h2]
  | podDelete podName =>
    have hgoal : ∀ (hm : Option (List String)),
        List.lookup ((List.lookup podName st.podToSlug).getD "") st.slugToPods = hm →
        (deletePod st podName).slugToAppProfile = []
        ∧ (deletePod st podName).allProfiles = [] := by
      intro hm hmeq
      cases hm with
      | none => simp [deletePod, hmeq, h1, h2]
      | some members =>
        by_cases hr : (List.filter (fun m => m != podName) members).isEmpty = true
        · simp [deletePod, hmeq, hr, h1, h2]
        · simp [deletePod, hmeq, hr, h1, h2]
    exact hgoal _ rfl
  | profileAddOrModify obj =>
    simp [cacheStep, addApplicationProfile, unstructuredToApplicationProfile,
      jsonUnmarshalIntoNilProfile, h1, h2]
  | profileDelete obj =>
    simp [cacheStep, deleteApplicationProfile, h1, h2]

/-- C10: converting any watch object to an application profile fails
(the conversion unmarshals into a nil pointer), so no handler sequence
ever populates `slugToAppProfile`, and the cache's
`GetApplicationProfile` returns nil for every namespace and name. -/
theorem C10_profile_cache_always_nil
    (fetch : String → String → Except String Unstructured)
    (evs : List CacheEvent) (obj : Unstructured) (namespaceName name : String) :
    unstructuredToApplicationProfile obj =
      Except.error "json: Unmarshal(nil *v1beta1.ApplicationProfile)"
    ∧ GetApplicationProfile (cacheRun fetch evs) namespaceName name = none := by
  refine ⟨rfl, ?_⟩
  have hinv : ∀ (evs' : List CacheEvent) (st : APCacheState),
      st.slugToAppProfile = [] → st.allProfiles = [] →
      (evs'.foldl (cacheStep fetch) st).slugToAppProfile = []
      ∧ (evs'.foldl (cacheStep fetch) st).allProfiles = [] := by
    intro evs'
    induction evs' with
    | nil => intro st h1 h2; exact ⟨h1, h2⟩
    | cons e t ih =>
      intro st h1 h2
      have hstep := cacheStep_keeps_unmaterialized fetch st e h1 h2
      exact ih _ hstep.1 hstep.2
  have hrun := hinv evs NewApplicationProfileCache rfl rfl
  unfold GetApplicationProfile cacheRun
  rw [hrun.1]
  rfl

/-- C9: the exporter constructor rejects a configuration with an empty
URL and one whose explicitly provided method is neither POST nor PUT;
with a URL set and every optional field omitted, the constructed
configuration has method POST, a 1-second timeout, a 10000-per-minute
alert limit and empty headers; explicitly provided values for those
fields are kept unchanged. -/
theorem C9_init_http_exporter (c : HTTPExporterConfig) (url m : String)
    (t mx : Nat) (hs : List (String × String)) :
    (c.url = "" → InitHTTPExporter c = Except.error "URL is required for the HTTP exporter")
  ∧ (c.url ≠ "" → c.method ≠ "" → c.method ≠ "POST" → c.method ≠ "PUT" →
      InitHTTPExporter c = Except.error "method must be POST or PUT")
  ∧ (url ≠ "" →
      InitHTTPExporter { url := url, method := "", timeoutSeconds := 0,
                         maxAlertsPerMinute := 0, headers := none } =
        Except.ok { url := url, method := "POST", timeoutSeconds := 1,
                    maxAlertsPerMinute := 10000, headers := some [] })
  ∧ (url ≠ "" → (m = "POST" ∨ m = "PUT") → t ≠ 0 → mx ≠ 0 →
      InitHTTPExporter { url := url, method := m, timeoutSeconds := t,
                         maxAlertsPerMinute := mx, headers := some hs } =
        Except.ok { url := url, method := m, timeoutSeconds := t,
                    maxAlertsPerMinute := mx, headers := some hs }) := by
  refine ⟨?_, ?_, ?_, ?_⟩
  · intro hurl
    simp [InitHTTPExporter, hurl]
  · intro hurl hm0 hmp hmq
    simp [InitHTTPExporter, hurl, hm0, hmp, hmq]
  · intro hurl
    simp [InitHTTPExporter, hurl]
  · intro hurl hm ht hmx
    rcases hm with hm | hm <;> simp [InitHTTPExporter, hurl, hm, ht, hmx]

/-- Witness for C9: the empty configuration is rejected, a DELETE method
is rejected, a URL-only configuration receives the documented defaults,
and a fully specified PUT configuration is kept unchanged. -/
theorem C9_witness :
    InitHTTPExporter { url := "", method := "", timeoutSeconds := 0,
                       maxAlertsPerMinute := 0, headers := none } =
      Except.error "URL is required for the HTTP exporter"
  ∧ InitHTTPExporter { url := "http://localhost:9093", method := "DELETE",
                       timeoutSeconds := 0, maxAlertsPerMinute := 0,
                       headers := none } =
      Except.error "method must be POST or PUT"
  ∧ InitHTTPExporter { url := "http://localhost:9093", method := "",
                       timeoutSeconds := 0, maxAlertsPerMinute := 0,
                       headers := none } =
      Except.ok { url := "http://localhost:9093", method := "POST",
                  timeoutSeconds := 1, maxAlertsPerMinute := 10000,
                  headers := some [] }
  ∧ InitHTTPExporter { url := "http://localhost:9093", method := "PUT",
                       timeoutSeconds := 2, maxAlertsPerMinute := 20000,
                       headers := some [("Authorization", "Bearer token")] } =
      Except.ok { url := "http://localhost:9093", method := "PUT",
                  timeoutSeconds := 2, maxAlertsPerMinute := 20000,
                  headers := some [("Authorization", "Bearer token")] } :=
  ⟨(C9_init_http_exporter
      { url := "", method := "", timeoutSeconds := 0,
        maxAlertsPerMinute := 0, headers := none } "" "" 0 0 []).1 rfl,
   (C9_init_http_exporter
      { url := "http://localhost:9093", method := "DELETE", timeoutSeconds := 0,
        maxAlertsPerMinute := 0, headers := none } "" "" 0 0 []).2.1
      (by decide) (by decide) (by decide) (by decide),
   (C9_init_http_exporter
      { url := "", method := "", timeoutSeconds := 0, maxAlertsPerMinute := 0,
        headers := none } "http://localhost:9093" "" 0 0 []).2.2.1 (by decide),
   (C9_init_http_exporter
      { url := "", method := "", timeoutSeconds := 0, maxAlertsPerMinute := 0,
        headers := none } "http://localhost:9093" "PUT" 2 20000
      [("Authorization", "Bearer token")]).2.2.2
      (by decide) (Or.inr rfl) (by decide) (by decide)⟩

/-- Helper: a batch of sends whose timestamps all fall inside the
current window advances the counter by the batch length, emits the first
`max - c` real alerts, and emits the single synthetic limit alert
exactly when the counter crosses the limit inside the batch. -/
theorem sendAll_in_window (maxA w : Nat) :
    ∀ (sends : List (Nat × HTTPAlert)) (c : Nat),
      (∀ p ∈ sends, p.1 < w + 60) →
      sendAll maxA { alertCount := c, windowStart := w,
                     limitNotified := decide (maxA < c) } sends =
        ({ alertCount := c + sends.length, windowStart := w,
           limitNotified := decide (maxA < c + sends.length) },
         ((sends.map Prod.snd).take (maxA - c)) ++
           (if maxA < c + sends.length ∧ c ≤ maxA then [alertLimitReachedAlert]
            else [])) := by
  intro sends
  induction sends with
  | nil =>
    intro c hw
    have hno : ¬(maxA < c + 0 ∧ c ≤ maxA) := by omega
    simp [sendAll, hno]
  | cons p rest ih =>
    intro c hw
    obtain ⟨t, a⟩ := p
    have hwt : ¬(w + 60 ≤ t) := by
      have := hw (t, a) (List.mem_cons_self _ _)
      omega
    have hrest := ih (c + 1) (fun q hq => hw q (List.mem_cons_of_mem _ hq))
    by_cases hc : maxA < c + 1
    · by_cases hc2 : maxA < c
      · have hstep : sendAlert maxA
            { alertCount := c, windowStart := w, limitNotified := decide (maxA < c) } t a =
            ({ alertCount := c + 1, windowStart := w,
               limitNotified := decide (maxA < c + 1) }, none) := by
          simp [sendAlert, hwt, hc, hc2]
        have hlen : c + 1 + rest.length = c + (rest.length + 1) := by omega
        have htk1 : maxA - (c + 1) = 0 := by omega
        have htk0 : maxA - c = 0 := by omega
        have hif1 : ¬(maxA < c + 1 + rest.length ∧ c + 1 ≤ maxA) := by omega
        have hif0 : ¬(maxA < c + (rest.length + 1) ∧ c ≤ maxA) := by omega
        simp only [sendAll, hstep, hrest, hlen, htk1, htk0, hif1, hif0,
          List.take_zero, reduceIte, Option.toList_none, List.nil_append,
          List.append_nil, List.map_cons, List.length_cons]
        rw [if_neg (show ¬(maxA < c + (rest.length + 1) ∧ c + 1 ≤ maxA) by omega)]
      · have hd : decide (maxA < c) = false := by simpa using hc2
        have hd1 : decide (maxA < c + 1) = true := by simpa using hc
        have hstep : sendAlert maxA
            { alertCount := c, windowStart := w, limitNotified := decide (maxA < c) } t a =
            ({ alertCount := c + 1, windowStart := w,
               limitNotified := decide (maxA < c + 1) },
             some alertLimitReachedAlert) := by
          simp [sendAlert, hwt, hc, hd, hd1]
        have hlen : c + 1 + rest.length = c + (rest.length + 1) := by omega
        have htk1 : maxA - (c + 1) = 0 := by omega
        have htk0 : maxA - c = 0 := by omega
        have hif1 : ¬(maxA < c + 1 + rest.length ∧ c + 1 ≤ maxA) := by omega
        have hif0 : maxA < c + (rest.length + 1) ∧ c ≤ maxA := by omega
        simp only [sendAll, hstep, hrest, hlen, htk1, htk0, hif1, hif0,
          List.take_zero, reduceIte, Option.toList_some, List.nil_append,
          List.append_nil, List.map_cons, List.length_cons, List.singleton_append,
          if_pos hif0]
        have hno : ¬(c + 1 ≤ maxA) := by omega
        simp [hno]
    · have hd : decide (maxA < c) = false := by
        have : ¬(maxA < c) := by omega
        simpa using this
      have hd1 : decide (maxA < c + 1) = false := by simpa using hc
      have hstep : sendAlert maxA
          { alertCount := c, windowStart := w, limitNotified := decide (maxA < c) } t a =
          ({ alertCount := c + 1, windowStart := w,
             limitNotified := decide (maxA < c + 1) }, some a) := by
        rw [show (decide (maxA < c)) = false from hd]
        simp [sendAlert, hwt, hc, hd1]
      have hlen : c + 1 + rest.length = c + (rest.length + 1) := by omega
      have hmc : maxA - c = (maxA - (c + 1)) + 1 := by omega
      have hiff : (maxA < c + 1 + rest.length ∧ c + 1 ≤ maxA) ↔
          (maxA < c + (rest.length + 1) ∧ c ≤ maxA) := by omega
      simp only [sendAll, hstep, hrest, hlen, Option.toList_some,
        List.singleton_append, List.map_cons, List.length_cons, hmc,
        List.take_succ_cons, List.cons_append]
      by_cases hov : maxA < c + (rest.length + 1) ∧ c + 1 ≤ maxA
      · rw [if_pos hov, if_pos ⟨hov.1, by omega⟩]
        simp
      · rw [if_neg hov, if_neg (fun hx => hov ⟨hx.1, by omega⟩)]
        simp

/-- C3: starting a fresh 60-second window, any in-window sequence of
alert sends produces at most `MaxAlertsPerMinute + 1` HTTP payloads: the
first `MaxAlertsPerMinute` real alerts, then, if the batch is longer,
exactly one synthetic alert with rule name "AlertLimitReached" and
message "Alert limit reached" while every further in-window send is
suppressed; a send at or past the window boundary resets the counter and
goes out normally. -/
theorem C3_http_rate_limit (maxA w : Nat) (sends : List (Nat × HTTPAlert))
    (hin : ∀ p ∈ sends, p.1 < w + 60) (hmax : 1 ≤ maxA)
    (t' : Nat) (a' : HTTPAlert) (ht' : w + 60 ≤ t') :
    (sendAll maxA { alertCount := 0, windowStart := w, limitNotified := false }
        sends).2.length ≤ maxA + 1
  ∧ (sendAll maxA { alertCount := 0, windowStart := w, limitNotified := false }
        sends).2 =
      (sends.map Prod.snd).take maxA ++
        (if maxA < sends.length then [alertLimitReachedAlert] else [])
  ∧ alertLimitReachedAlert.ruleName = "AlertLimitReached"
  ∧ alertLimitReachedAlert.message = "Alert limit reached"
  ∧ sendAlert maxA
      (sendAll maxA { alertCount := 0, windowStart := w, limitNotified := false }
        sends).1 t' a' =
      ({ alertCount := 1, windowStart := t', limitNotified := false }, some a') := by
  have h0 : ({ alertCount := 0, windowStart := w, limitNotified := false } :
      HTTPExporterSendState) =
      { alertCount := 0, windowStart := w, limitNotified := decide (maxA < 0) } := by
    simp
  have hrun := sendAll_in_window maxA w sends 0 hin
  rw [h0] at *
  rw [hrun]
  have hiff : (maxA < 0 + sends.length ∧ 0 ≤ maxA) ↔ maxA < sends.length := by omega
  refine ⟨?_, ?_, rfl, rfl, ?_⟩
  · by_cases hov : maxA < 0 + sends.length ∧ 0 ≤ maxA
    · rw [if_pos hov]
      simp [List.length_take]
    · rw [if_neg hov]
      simp [List.length_take]
  · simp only [Nat.sub_zero]
    by_cases hov : maxA < sends.length
    · rw [if_pos (hiff.mpr hov), if_pos hov]
    · rw [if_neg (fun hx => hov (hiff.mp hx)), if_neg hov]
  · have hn1 : ¬(maxA < 0 + 1) := by omega
    simp [sendAlert, ht', hn1]

/-- Witness for C3: with a limit of one alert per minute, two back-to-back
sends produce the real alert then the synthetic limit alert, and a send
in the next window goes out normally. -/
theorem C3_witness :
    (sendAll 1 { alertCount := 0, windowStart := 0, limitNotified := false }
        [(10, { ruleName := "testrule", message := "Application profile is missing" }),
         (20, { ruleName := "testrule", message := "Application profile is missing" })]).2 =
      [{ ruleName := "testrule", message := "Application profile is missing" },
       alertLimitReachedAlert]
  ∧ alertLimitReachedAlert.ruleName = "AlertLimitReached"
  ∧ alertLimitReachedAlert.message = "Alert limit reached"
  ∧ sendAlert 1
      (sendAll 1 { alertCount := 0, windowStart := 0, limitNotified := false }
        [(10, { ruleName := "testrule", message := "Application profile is missing" }),
         (20, { ruleName := "testrule", message := "Application profile is missing" })]).1
      70 { ruleName := "r2", message := "m2" } =
      ({ alertCount := 1, windowStart := 70, limitNotified := false },
       some { ruleName := "r2", message := "m2" }) := by
  have h := C3_http_rate_limit 1 0
    [(10, { ruleName := "testrule", message := "Application profile is missing" }),
     (20, { ruleName := "testrule", message := "Application profile is missing" })]
    (by decide) (by decide) 70 { ruleName := "r2", message := "m2" } (by decide)
  exact ⟨by rw [h.2.1]; rfl, h.2.2.1, h.2.2.2.1, h.2.2.2.2⟩
